import Mathlib

/-
  Verification of the keycloak_group_rolemapping reconciliation module
  (src/plugins/modules/identity/keycloak/keycloak_group_rolemapping.py).

  The module body `main` (lines 240-365) is embedded as a pure function
  from the parsed module parameters and a Directory Service Client to an
  outcome together with the ordered trace of remote calls issued.

  The Directory Service Client (the KeycloakAPI object `kc`) lives in
  module_utils, outside this repository snapshot; it is modelled from the
  spec (section 6) as a record of pure lookup functions whose find
  operations return an optional value.  Mutating primitives
  (add_group_rolemapping / delete_group_rolemapping) are recorded in the
  call trace.

  Python-specific behaviour kept by the embedding:
  - `module.fail_json(msg=...)` terminates the run with `Outcome.failed`;
  - `module.exit_json(**result)` terminates with `Outcome.exited`;
  - subscripting the result of a lookup that returned `None`
    (for example the id subscript of `kc.get_realm_role` at line 284) raises a
    TypeError; this is `Outcome.crashed`;
  - the result dict initialised at line 240 has `end_state={}` and
    `diff={}`; the untouched empty placeholders are modelled as `none`.
-/

set_option linter.unusedVariables false

namespace GroupRolemapping

/-- Intent of the reconciliation: the `state` module option, with values
`present` and `absent` (line 223). -/
inductive Intent where
  | present
  | absent
deriving Repr, DecidableEq

/-- One entry of the `roles` module option: a dict with optional `name`
and optional `id` sub-options (lines 217-220). -/
structure RoleRef where
  name : Option String
  id : Option String
deriving Repr, DecidableEq

/-- A role representation as returned by the Keycloak API: both `id` and
`name` populated. -/
structure ResolvedRole where
  id : String
  name : String
deriving Repr, DecidableEq

/-- A group representation as returned by `get_group_by_name`. -/
structure Group where
  id : String
  name : String
deriving Repr, DecidableEq

/-- The parsed module parameters read at lines 250-256, together with the
two ambient module flags `check_mode` (dry run) and `_diff` (line 334). -/
structure Params where
  state : Intent
  realm : String
  gid : Option String
  target_groupname : Option String
  cid : Option String
  client_id : Option String
  roles : Option (List RoleRef)
  check_mode : Bool
  diff_mode : Bool

/-- Modelled from the spec: the Directory Service Client (section 6) as
consumed by `main`.  It is not part of this repository snapshot (it lives
in module_utils); following section 6, every find operation returns an
optional value and the two list operations return sets of fully resolved
roles.  The record holds pure functions, so a single client answers
identically whenever it is asked the same question within one run. -/
structure KC where
  get_group_by_name : String → String → Option Group
  get_client_id : String → String → Option String
  get_realm_role : String → String → Option ResolvedRole
  get_client_role_id_by_name : String → String → String → Option String
  get_realm_group_rolemapping_by_id : String → String → String → Option ResolvedRole
  get_client_group_rolemapping_by_id : String → String → String → String → Option ResolvedRole
  get_realm_group_available_rolemappings : String → String → List ResolvedRole
  get_realm_group_composite_rolemappings : String → String → List ResolvedRole
  get_client_group_available_rolemappings : String → String → String → List ResolvedRole
  get_client_group_composite_rolemappings : String → String → String → List ResolvedRole

/-- One remote call issued against the Directory Service Client, with its
arguments in source order. -/
inductive Call where
  | getGroupByName (name realm : String)
  | getClientId (client_id realm : String)
  | getRealmRole (name realm : String)
  | getClientRoleIdByName (cid name realm : String)
  | getRealmGroupRolemappingById (gid rid realm : String)
  | getClientGroupRolemappingById (gid cid rid realm : String)
  | getRealmAvailable (gid realm : String)
  | getRealmComposite (gid realm : String)
  | getClientAvailable (gid cid realm : String)
  | getClientComposite (gid cid realm : String)
  | addGroupRolemapping (gid : String) (cid : Option String) (role_rep : List RoleRef) (realm : String)
  | deleteGroupRolemapping (uid : String) (cid : Option String) (role_rep : List RoleRef) (realm : String)
deriving Repr, DecidableEq

/-- A call is mutating exactly when it is one of the two rolemapping
write primitives. -/
def Call.isMutating : Call → Bool
  | Call.addGroupRolemapping _ _ _ _ => true
  | Call.deleteGroupRolemapping _ _ _ _ => true
  | _ => false

/-- The result dict assembled by `main` (line 240) as it stands when an
`exit_json(**result)` call fires.  `diff` and `end_state` are `none` while
they still hold the initial empty placeholder. -/
structure ModuleResult where
  changed : Bool
  msg : String
  diff : Option (List ResolvedRole × List RoleRef)
  proposed : List RoleRef
  existing : List ResolvedRole
  end_state : Option (List ResolvedRole)
deriving Repr, DecidableEq

/-- How a run of `main` terminates: `failed` is `fail_json(msg=...)`,
`exited` is `exit_json(**result)`, `exitedMsg` is the bare
`exit_json(msg=...)` at line 276, and `crashed` is an uncaught Python
TypeError from subscripting a `None` lookup result. -/
inductive Outcome where
  | failed (msg : String)
  | crashed (msg : String)
  | exitedMsg (msg : String)
  | exited (result : ModuleResult)
deriving Repr, DecidableEq

/-- Python rendering of an optional string under the percent-s format:
`None` for a missing value, the bare string otherwise. -/
def pyStrOpt : Option String → String
  | none => "None"
  | some s => s

/-- Python repr of an optional string: `None` or the quoted string. -/
def pyReprOptStr : Option String → String
  | none => "None"
  | some s => "\x27" ++ s ++ "\x27"

/-- Python repr of one mutation-list entry, a dict with keys `id` and
`name` in insertion order (lines 317-320). -/
def pyReprRole (r : RoleRef) : String :=
  "\x7b\x27id\x27: " ++ pyReprOptStr r.id ++ ", \x27name\x27: " ++ pyReprOptStr r.name ++ "\x7d"

/-- Python repr of a list of role dicts. -/
def pyReprRoles (rs : List RoleRef) : String :=
  "[" ++ String.intercalate ", " (rs.map pyReprRole) ++ "]"

/-- Failure message of line 260. -/
def gidParamMsg : String :=
  "Either the `target_groupname` or `gid` has to be specified."

/-- Failure message of line 268. -/
def groupFetchMsg (t : String) : String :=
  "Could not fetch group for name " ++ t ++ ":"

/-- Failure message of line 273. -/
def clientFetchMsg (c : String) : String :=
  "Could not fetch client " ++ c ++ ":"

/-- Failure message of line 280. -/
def roleFieldMsg : String :=
  "Either the `name` or `id` has to be specified on each role."

/-- Failure message of lines 290 and 298: the offending reference (name
or id), the raw `client_id` parameter and the realm. -/
def roleFetchMsg (x : String) (client_id : Option String) (realm : String) : String :=
  "Could not fetch role " ++ x ++ " for client_id " ++ pyStrOpt client_id ++ " or realm " ++ realm

/-- Exit message of line 276. -/
def noRolesMsg : String :=
  "Nothing to do (no roles specified)."

/-- TypeError raised when a `None` lookup result is subscripted. -/
def subscriptNoneMsg : String :=
  "TypeError: NoneType object is not subscriptable"

/-- Success message of line 339. -/
def assignedMsg (u : List RoleRef) (gid : String) : String :=
  "Roles " ++ pyReprRoles u ++ " assigned to groupId " ++ gid ++ "."

/-- Success message of line 354. -/
def removedMsg (u : List RoleRef) (gid : String) : String :=
  "Roles " ++ pyReprRoles u ++ " removed from groupId " ++ gid ++ "."

/-- No-op message of line 364. -/
def noopMsg (rs : List RoleRef) (target_groupname : Option String) : String :=
  "Nothing to do, roles " ++ pyReprRoles rs ++ " are correctly mapped to group " ++
    pyStrOpt target_groupname ++ "."

/-- The comparison set the diff loop iterates for a given intent:
`available` under present (line 315), `assigned` under absent (line 323). -/
def cmpSet (state : Intent) (available assigned : List ResolvedRole) : List ResolvedRole :=
  match state with
  | Intent.present => available
  | Intent.absent => assigned

/-- Inner loop of the diff engine (lines 315-320 and 323-328): for one
desired role, one entry `{id: role.id, name: role.name}` is appended per
comparison-set element whose name equals the desired role name. -/
def roleMatches (role : RoleRef) (cmp : List ResolvedRole) : List RoleRef :=
  match cmp with
  | [] => []
  | c :: rest =>
      (if role.name == some c.name then [RoleRef.mk role.name role.id] else []) ++
        roleMatches role rest

/-- The Diff Engine (lines 311-328): iterate the desired roles in input
order; under present match against `available`, under absent against
`assigned`; append one entry per match, built from the own name and id of
the desired role. -/
def compute_update_roles (state : Intent) (roles : List RoleRef)
    (available assigned : List ResolvedRole) : List RoleRef :=
  match roles with
  | [] => []
  | role :: rest =>
      roleMatches role (cmpSet state available assigned) ++
        compute_update_roles state rest available assigned

/-- Group id resolution (lines 259-268): fail if neither `gid` nor
`target_groupname` is given; use `gid` directly when present; otherwise
look the group up by name, failing when the lookup returns nothing. -/
def resolveGid (p : Params) (kc : KC) : List Call × Except Outcome String :=
  match p.gid, p.target_groupname with
  | none, none => ([], Except.error (Outcome.failed gidParamMsg))
  | some g, _ => ([], Except.ok g)
  | none, some t =>
      match kc.get_group_by_name t p.realm with
      | some grp => ([Call.getGroupByName t p.realm], Except.ok grp.id)
      | none => ([Call.getGroupByName t p.realm], Except.error (Outcome.failed (groupFetchMsg t)))

/-- Client id resolution (lines 270-273): only when `cid` is absent and
`client_id` is given is a lookup issued; a missing client fails. -/
def resolveCid (p : Params) (kc : KC) : List Call × Except Outcome (Option String) :=
  match p.cid, p.client_id with
  | some c, _ => ([], Except.ok (some c))
  | none, none => ([], Except.ok none)
  | none, some c =>
      match kc.get_client_id c p.realm with
      | some cidv => ([Call.getClientId c p.realm], Except.ok (some cidv))
      | none => ([Call.getClientId c p.realm], Except.error (Outcome.failed (clientFetchMsg c)))

/-- Resolution of a single role reference (lines 278-298).  A reference
with neither field fails at once (line 280).  With only a name, the role
is looked up by name: realm-scoped via `get_realm_role`, whose `None`
result is subscripted (crash), or client-scoped via
`get_client_role_id_by_name`, whose `None` result fails with the line-290
message.  With an id, the current group role-mapping is looked up by id
to recover the name; a `None` result is subscripted (crash). -/
def resolveRole (kc : KC) (realm : String) (client_id : Option String)
    (gid : String) (cid : Option String) (role : RoleRef) :
    List Call × Except Outcome RoleRef :=
  match role.name, role.id with
  | none, none => ([], Except.error (Outcome.failed roleFieldMsg))
  | some n, none =>
      match cid with
      | none =>
          match kc.get_realm_role n realm with
          | none => ([Call.getRealmRole n realm], Except.error (Outcome.crashed subscriptNoneMsg))
          | some r => ([Call.getRealmRole n realm], Except.ok (RoleRef.mk (some n) (some r.id)))
      | some c =>
          match kc.get_client_role_id_by_name c n realm with
          | some rid =>
              ([Call.getClientRoleIdByName c n realm], Except.ok (RoleRef.mk (some n) (some rid)))
          | none =>
              ([Call.getClientRoleIdByName c n realm],
               Except.error (Outcome.failed (roleFetchMsg n client_id realm)))
  | _, some rid =>
      match cid with
      | none =>
          match kc.get_realm_group_rolemapping_by_id gid rid realm with
          | none =>
              ([Call.getRealmGroupRolemappingById gid rid realm],
               Except.error (Outcome.crashed subscriptNoneMsg))
          | some r =>
              ([Call.getRealmGroupRolemappingById gid rid realm],
               Except.ok (RoleRef.mk (some r.name) (some rid)))
      | some c =>
          match kc.get_client_group_rolemapping_by_id gid c rid realm with
          | none =>
              ([Call.getClientGroupRolemappingById gid c rid realm],
               Except.error (Outcome.crashed subscriptNoneMsg))
          | some r =>
              ([Call.getClientGroupRolemappingById gid c rid realm],
               Except.ok (RoleRef.mk (some r.name) (some rid)))

/-- Sequential in-place resolution of the whole `roles` list
(lines 278-298): roles are processed in input order and the first failure
terminates the run. -/
def resolveRolesList (kc : KC) (realm : String) (client_id : Option String)
    (gid : String) (cid : Option String) :
    List RoleRef → List Call × Except Outcome (List RoleRef)
  | [] => ([], Except.ok [])
  | role :: rest =>
      match resolveRole kc realm client_id gid cid role with
      | (cs, Except.error o) => (cs, Except.error o)
      | (cs, Except.ok r) =>
          match resolveRolesList kc realm client_id gid cid rest with
          | (cs2, Except.error o) => (cs ++ cs2, Except.error o)
          | (cs2, Except.ok rs) => (cs ++ cs2, Except.ok (r :: rs))

/-- The available-roles fetch of lines 301-306, realm- or client-scoped. -/
def fetchAvailable (kc : KC) (cid : Option String) (gid realm : String) : List ResolvedRole :=
  match cid with
  | none => kc.get_realm_group_available_rolemappings gid realm
  | some c => kc.get_client_group_available_rolemappings gid c realm

/-- The composite (assigned) roles fetch of lines 301-306 and 340-343,
realm- or client-scoped. -/
def fetchAssigned (kc : KC) (cid : Option String) (gid realm : String) : List ResolvedRole :=
  match cid with
  | none => kc.get_realm_group_composite_rolemappings gid realm
  | some c => kc.get_client_group_composite_rolemappings gid c realm

/-- The two lookup calls issued by the role-set fetch of lines 301-306. -/
def fetchCalls (cid : Option String) (gid realm : String) : List Call :=
  match cid with
  | none => [Call.getRealmAvailable gid realm, Call.getRealmComposite gid realm]
  | some c => [Call.getClientAvailable gid c realm, Call.getClientComposite gid c realm]

/-- The single re-fetch call of lines 340-343 (or 355-358). -/
def refetchCall (cid : Option String) (gid realm : String) : List Call :=
  match cid with
  | none => [Call.getRealmComposite gid realm]
  | some c => [Call.getClientComposite gid c realm]

/-- Everything after role resolution (lines 300-365): fetch the two
comparison sets, record `existing` and `proposed`, run the diff loop,
then either mutate (with check-mode early exit) or report the no-op. -/
def afterResolve (p : Params) (kc : KC) (gid : String) (cid : Option String)
    (resolved : List RoleRef) : List Call × Outcome :=
  let available := fetchAvailable kc cid gid p.realm
  let assigned := fetchAssigned kc cid gid p.realm
  let update := compute_update_roles p.state resolved available assigned
  let base : ModuleResult :=
    { changed := false, msg := "", diff := none, proposed := resolved,
      existing := assigned, end_state := none }
  if update.length ≠ 0 then
    match p.state with
    | Intent.present =>
        let r1 := { base with
          changed := true
          diff := if p.diff_mode then some (assigned, update) else none }
        if p.check_mode then
          (fetchCalls cid gid p.realm, Outcome.exited r1)
        else
          (fetchCalls cid gid p.realm ++ [Call.addGroupRolemapping gid cid update p.realm] ++
             refetchCall cid gid p.realm,
           Outcome.exited { r1 with
             msg := assignedMsg update gid
             end_state := some (fetchAssigned kc cid gid p.realm) })
    | Intent.absent =>
        let r1 := { base with
          changed := true
          diff := if p.diff_mode then some (assigned, update) else none }
        if p.check_mode then
          (fetchCalls cid gid p.realm, Outcome.exited r1)
        else
          (fetchCalls cid gid p.realm ++ [Call.deleteGroupRolemapping gid cid update p.realm] ++
             refetchCall cid gid p.realm,
           Outcome.exited { r1 with
             msg := removedMsg update gid
             end_state := some (fetchAssigned kc cid gid p.realm) })
  else
    (fetchCalls cid gid p.realm,
     Outcome.exited { base with msg := noopMsg resolved p.target_groupname })

/-- The full module body `main` (lines 240-365) as a function of the
parsed parameters and the Directory Service Client, returning the ordered
remote-call trace and the terminal outcome. -/
def mainRun (p : Params) (kc : KC) : List Call × Outcome :=
  match resolveGid p kc with
  | (cs, Except.error o) => (cs, o)
  | (cs, Except.ok gid) =>
      match resolveCid p kc with
      | (cs2, Except.error o) => (cs ++ cs2, o)
      | (cs2, Except.ok cid) =>
          match p.roles with
          | none => (cs ++ cs2, Outcome.exitedMsg noRolesMsg)
          | some roles =>
              match resolveRolesList kc p.realm p.client_id gid cid roles with
              | (cs3, Except.error o) => (cs ++ cs2 ++ cs3, o)
              | (cs3, Except.ok resolved) =>
                  match afterResolve p kc gid cid resolved with
                  | (cs4, out) => (cs ++ cs2 ++ cs3 ++ cs4, out)

/-- The write primitive selected by the intent (line 338 or 353). -/
def mutationCall (state : Intent) (gid : String) (cid : Option String)
    (u : List RoleRef) (realm : String) : Call :=
  match state with
  | Intent.present => Call.addGroupRolemapping gid cid u realm
  | Intent.absent => Call.deleteGroupRolemapping gid cid u realm

/-- The changed flag of an exited outcome, if any. -/
def Outcome.changedOf : Outcome → Option Bool
  | Outcome.exited r => some r.changed
  | _ => none

/-- The end_state field of an exited outcome, if any. -/
def Outcome.endStateOf : Outcome → Option (Option (List ResolvedRole))
  | Outcome.exited r => some r.end_state
  | _ => none

/-- The proposed field of an exited outcome, if any. -/
def Outcome.proposedOf : Outcome → Option (List RoleRef)
  | Outcome.exited r => some r.proposed
  | _ => none

/-- Whether the outcome is a failure (fail_json or an uncaught error). -/
def Outcome.isFailure : Outcome → Bool
  | Outcome.failed _ => true
  | Outcome.crashed _ => true
  | _ => false

/-- A call trace containing only lookups, never a mutating primitive. -/
def LookupOnly (cs : List Call) : Prop :=
  ∀ c ∈ cs, c.isMutating = false

/-- The success message template selected by the intent (line 339 or 354). -/
def mutationMsg (state : Intent) (u : List RoleRef) (gid : String) : String :=
  match state with
  | Intent.present => assignedMsg u gid
  | Intent.absent => removedMsg u gid

def kcEmpty : KC :=
  { get_group_by_name := fun _ _ => none
    get_client_id := fun _ _ => none
    get_realm_role := fun _ _ => none
    get_client_role_id_by_name := fun _ _ _ => none
    get_realm_group_rolemapping_by_id := fun _ _ _ => none
    get_client_group_rolemapping_by_id := fun _ _ _ _ => none
    get_realm_group_available_rolemappings := fun _ _ => []
    get_realm_group_composite_rolemappings := fun _ _ => []
    get_client_group_available_rolemappings := fun _ _ _ => []
    get_client_group_composite_rolemappings := fun _ _ _ => [] }

def pBase : Params :=
  { state := Intent.present, realm := "master", gid := some "g1", target_groupname := none,
    cid := none, client_id := none, roles := none, check_mode := false, diff_mode := false }

def kcMain : KC :=
  { kcEmpty with
    get_realm_role := fun n _ =>
      if n == "r1" then some { id := "i1", name := "r1" } else none
    get_realm_group_rolemapping_by_id := fun _ rid _ =>
      if rid == "i1" then some { id := "i1", name := "r1" } else none
    get_realm_group_available_rolemappings := fun _ _ => [{ id := "i1", name := "r1" }]
    get_realm_group_composite_rolemappings := fun _ _ => [{ id := "i9", name := "other" }] }

def kcMain2 : KC :=
  { kcMain with
    get_realm_group_available_rolemappings := fun _ _ => []
    get_realm_group_composite_rolemappings := fun _ _ =>
      [{ id := "i9", name := "other" }, { id := "i1", name := "r1" }] }

def pMain : Params := { pBase with roles := some [RoleRef.mk (some "r1") none] }

def pC2 : Params :=
  { pBase with
    gid := none
    target_groupname := some "grp"
    roles := some [RoleRef.mk none none] }

def kcC2 : KC :=
  { kcEmpty with get_group_by_name := fun t _ => some { id := "g1", name := t } }

def pC2w : Params := { pBase with roles := some [RoleRef.mk none none] }

def pC3 : Params :=
  { pBase with
    state := Intent.absent
    roles := some [RoleRef.mk (some "r1") none] }

def csC3 : List Call :=
  [Call.getRealmRole "r1" "master", Call.getRealmAvailable "g1" "master",
   Call.getRealmComposite "g1" "master"]

def rC3 : ModuleResult :=
  { changed := false, msg := noopMsg [RoleRef.mk (some "r1") (some "i1")] none, diff := none,
    proposed := [RoleRef.mk (some "r1") (some "i1")],
    existing := [ResolvedRole.mk "i9" "other"], end_state := none }

def pC4 : Params := { pMain with check_mode := true }

theorem roleMatches_eq_filter_map (role : RoleRef) (cmp : List ResolvedRole) :
    roleMatches role cmp =
      (cmp.filter (fun c => role.name == some c.name)).map
        (fun _ => RoleRef.mk role.name role.id) := by
  induction cmp with
  | nil => rfl
  | cons c rest ih =>
      by_cases h : role.name = some c.name
      · simp [roleMatches, List.filter_cons, h, ih]
      · simp [roleMatches, List.filter_cons, h, ih]

theorem mem_roleMatches (role : RoleRef) (cmp : List ResolvedRole) (x : RoleRef) :
    x ∈ roleMatches role cmp ↔
      ((∃ c ∈ cmp, role.name = some c.name) ∧ x = RoleRef.mk role.name role.id) := by
  rw [roleMatches_eq_filter_map]
  simp [List.mem_map, List.mem_filter]

theorem compute_update_roles_eq_flatMap (state : Intent) (roles : List RoleRef)
    (available assigned : List ResolvedRole) :
    compute_update_roles state roles available assigned =
      roles.flatMap (fun r => roleMatches r (cmpSet state available assigned)) := by
  induction roles with
  | nil => rfl
  | cons r rest ih => simp [compute_update_roles, ih]

theorem mem_compute_update_roles (state : Intent) (roles : List RoleRef)
    (available assigned : List ResolvedRole) (x : RoleRef) :
    x ∈ compute_update_roles state roles available assigned ↔
      ∃ r ∈ roles, (∃ c ∈ cmpSet state available assigned, r.name = some c.name) ∧
        x = RoleRef.mk r.name r.id := by
  rw [compute_update_roles_eq_flatMap]
  simp [List.mem_flatMap, mem_roleMatches]

theorem compute_update_roles_eq_nil_iff (state : Intent) (roles : List RoleRef)
    (available assigned : List ResolvedRole) :
    compute_update_roles state roles available assigned = [] ↔
      ∀ r ∈ roles, ∀ c ∈ cmpSet state available assigned, r.name ≠ some c.name := by
  rw [List.eq_nil_iff_forall_not_mem]
  constructor
  · intro h r hr c hc hname
    exact h (RoleRef.mk r.name r.id) ((mem_compute_update_roles _ _ _ _ _).2 ⟨r, hr, ⟨c, hc, hname⟩, rfl⟩)
  · intro h x hx
    rcases (mem_compute_update_roles _ _ _ _ _).1 hx with ⟨r, hr, ⟨c, hc, hname⟩, _⟩
    exact h r hr c hc hname

theorem lookupOnly_nil : LookupOnly [] := by
  intro c hc
  cases hc

theorem lookupOnly_append {cs1 cs2 : List Call} (h1 : LookupOnly cs1) (h2 : LookupOnly cs2) :
    LookupOnly (cs1 ++ cs2) := by
  intro c hc
  rcases List.mem_append.1 hc with h | h
  · exact h1 c h
  · exact h2 c h

theorem lookupOnly_single {c : Call} (h : c.isMutating = false) : LookupOnly [c] := by
  intro x hx
  rcases List.mem_singleton.1 hx with rfl
  exact h

theorem resolveGid_lookupOnly (p : Params) (kc : KC) : LookupOnly (resolveGid p kc).1 := by
  obtain ⟨st, realm, gid, tg, cid, clid, roles, cm, dm⟩ := p
  rcases gid with _ | g <;> rcases tg with _ | t
  · exact lookupOnly_nil
  · cases h : kc.get_group_by_name t realm <;>
      · simp only [resolveGid, h]
        exact lookupOnly_single rfl
  · exact lookupOnly_nil
  · exact lookupOnly_nil

theorem resolveGid_error_failed {p : Params} {kc : KC} {cs : List Call} {o : Outcome}
    (h : resolveGid p kc = (cs, Except.error o)) : ∃ m, o = Outcome.failed m := by
  obtain ⟨st, realm, gid, tg, cid, clid, roles, cm, dm⟩ := p
  rcases gid with _ | g <;> rcases tg with _ | t <;> simp only [resolveGid] at h
  · simp only [Prod.mk.injEq, Except.error.injEq] at h
    exact ⟨_, h.2.symm⟩
  · cases hg : kc.get_group_by_name t realm <;> rw [hg] at h <;>
      simp only [Prod.mk.injEq, Except.error.injEq] at h
    · exact ⟨_, h.2.symm⟩
    · exact absurd h.2 (by simp)
  · simp only [Prod.mk.injEq] at h
    exact absurd h.2 (by simp)
  · simp only [Prod.mk.injEq] at h
    exact absurd h.2 (by simp)

theorem resolveCid_lookupOnly (p : Params) (kc : KC) : LookupOnly (resolveCid p kc).1 := by
  obtain ⟨st, realm, gid, tg, cid, clid, roles, cm, dm⟩ := p
  rcases cid with _ | c
  · rcases clid with _ | cl
    · exact lookupOnly_nil
    · cases h : kc.get_client_id cl realm <;>
        · simp only [resolveCid, h]
          exact lookupOnly_single rfl
  · exact lookupOnly_nil

theorem resolveCid_error_failed {p : Params} {kc : KC} {cs : List Call} {o : Outcome}
    (h : resolveCid p kc = (cs, Except.error o)) : ∃ m, o = Outcome.failed m := by
  obtain ⟨st, realm, gid, tg, cid, clid, roles, cm, dm⟩ := p
  rcases cid with _ | c <;> simp only [resolveCid] at h
  · rcases clid with _ | cl <;> simp only [resolveCid] at h
    · simp only [Prod.mk.injEq] at h
      exact absurd h.2 (by simp)
    · cases hg : kc.get_client_id cl realm <;> rw [hg] at h <;>
        simp only [Prod.mk.injEq, Except.error.injEq] at h
      · exact ⟨_, h.2.symm⟩
      · exact absurd h.2 (by simp)
  · simp only [Prod.mk.injEq] at h
    exact absurd h.2 (by simp)

theorem resolveRole_lookupOnly (kc : KC) (realm : String) (clid : Option String)
    (gid : String) (cid : Option String) (role : RoleRef) :
    LookupOnly (resolveRole kc realm clid gid cid role).1 := by
  obtain ⟨nm, idv⟩ := role
  rcases nm with _ | n <;> rcases idv with _ | rid
  · exact lookupOnly_nil
  · rcases cid with _ | c
    · cases h : kc.get_realm_group_rolemapping_by_id gid rid realm <;>
        · simp only [resolveRole, h]
          exact lookupOnly_single rfl
    · cases h : kc.get_client_group_rolemapping_by_id gid c rid realm <;>
        · simp only [resolveRole, h]
          exact lookupOnly_single rfl
  · rcases cid with _ | c
    · cases h : kc.get_realm_role n realm <;>
        · simp only [resolveRole, h]
          exact lookupOnly_single rfl
    · cases h : kc.get_client_role_id_by_name c n realm <;>
        · simp only [resolveRole, h]
          exact lookupOnly_single rfl
  · rcases cid with _ | c
    · cases h : kc.get_realm_group_rolemapping_by_id gid rid realm <;>
        · simp only [resolveRole, h]
          exact lookupOnly_single rfl
    · cases h : kc.get_client_group_rolemapping_by_id gid c rid realm <;>
        · simp only [resolveRole, h]
          exact lookupOnly_single rfl

theorem resolveRole_error_shape {kc : KC} {realm : String} {clid : Option String}
    {gid : String} {cid : Option String} {role : RoleRef} {cs : List Call} {o : Outcome}
    (h : resolveRole kc realm clid gid cid role = (cs, Except.error o)) :
    (∃ m, o = Outcome.failed m) ∨ o = Outcome.crashed subscriptNoneMsg := by
  obtain ⟨nm, idv⟩ := role
  rcases nm with _ | n <;> rcases idv with _ | rid
  · simp only [resolveRole, Prod.mk.injEq, Except.error.injEq] at h
    exact Or.inl ⟨_, h.2.symm⟩
  · rcases cid with _ | c
    · cases hg : kc.get_realm_group_rolemapping_by_id gid rid realm <;>
        simp only [resolveRole, hg, Prod.mk.injEq, Except.error.injEq] at h
      · exact Or.inr h.2.symm
      · exact absurd h.2 (by simp)
    · cases hg : kc.get_client_group_rolemapping_by_id gid c rid realm <;>
        simp only [resolveRole, hg, Prod.mk.injEq, Except.error.injEq] at h
      · exact Or.inr h.2.symm
      · exact absurd h.2 (by simp)
  · rcases cid with _ | c
    · cases hg : kc.get_realm_role n realm <;>
        simp only [resolveRole, hg, Prod.mk.injEq, Except.error.injEq] at h
      · exact Or.inr h.2.symm
      · exact absurd h.2 (by simp)
    · cases hg : kc.get_client_role_id_by_name c n realm <;>
        simp only [resolveRole, hg, Prod.mk.injEq, Except.error.injEq] at h
      · exact Or.inl ⟨_, h.2.symm⟩
      · exact absurd h.2 (by simp)
  · rcases cid with _ | c
    · cases hg : kc.get_realm_group_rolemapping_by_id gid rid realm <;>
        simp only [resolveRole, hg, Prod.mk.injEq, Except.error.injEq] at h
      · exact Or.inr h.2.symm
      · exact absurd h.2 (by simp)
    · cases hg : kc.get_client_group_rolemapping_by_id gid c rid realm <;>
        simp only [resolveRole, hg, Prod.mk.injEq, Except.error.injEq] at h
      · exact Or.inr h.2.symm
      · exact absurd h.2 (by simp)

theorem resolveRolesList_lookupOnly (kc : KC) (realm : String) (clid : Option String)
    (gid : String) (cid : Option String) (rs : List RoleRef) :
    LookupOnly (resolveRolesList kc realm clid gid cid rs).1 := by
  induction rs with
  | nil => exact lookupOnly_nil
  | cons role rest ih =>
      simp only [resolveRolesList]
      rcases h1 : resolveRole kc realm clid gid cid role with ⟨cs, e⟩
      have hcs : LookupOnly cs := by
        have := resolveRole_lookupOnly kc realm clid gid cid role
        rw [h1] at this
        exact this
      rcases e with o | r
      · exact hcs
      · rcases h2 : resolveRolesList kc realm clid gid cid rest with ⟨cs2, e2⟩
        have hcs2 : LookupOnly cs2 := by
          rw [h2] at ih
          exact ih
        rcases e2 with o2 | rs2
        · exact lookupOnly_append hcs hcs2
        · exact lookupOnly_append hcs hcs2

theorem resolveRolesList_error_shape {kc : KC} {realm : String} {clid : Option String}
    {gid : String} {cid : Option String} {rs : List RoleRef} {cs : List Call} {o : Outcome}
    (h : resolveRolesList kc realm clid gid cid rs = (cs, Except.error o)) :
    (∃ m, o = Outcome.failed m) ∨ o = Outcome.crashed subscriptNoneMsg := by
  induction rs generalizing cs o with
  | nil =>
      simp only [resolveRolesList, Prod.mk.injEq] at h
      exact absurd h.2 (by simp)
  | cons role rest ih =>
      simp only [resolveRolesList] at h
      rcases h1 : resolveRole kc realm clid gid cid role with ⟨cs1, e⟩
      rw [h1] at h
      rcases e with o1 | r
      · simp only [Prod.mk.injEq, Except.error.injEq] at h
        rcases resolveRole_error_shape h1 with hm | hm
        · exact Or.inl (h.2 ▸ hm)
        · exact Or.inr (h.2 ▸ hm)
      · rcases h2 : resolveRolesList kc realm clid gid cid rest with ⟨cs2, e2⟩
        rw [h2] at h
        rcases e2 with o2 | rs2
        · simp only [Prod.mk.injEq, Except.error.injEq] at h
          obtain rfl := h.2
          exact ih h2
        · simp only [Prod.mk.injEq] at h
          exact absurd h.2 (by simp)

theorem afterResolve_noop (p : Params) (kc : KC) (gid : String) (cid : Option String)
    (rs : List RoleRef)
    (h : compute_update_roles p.state rs (fetchAvailable kc cid gid p.realm)
          (fetchAssigned kc cid gid p.realm) = []) :
    afterResolve p kc gid cid rs =
      (fetchCalls cid gid p.realm,
       Outcome.exited
         { changed := false, msg := noopMsg rs p.target_groupname, diff := none,
           proposed := rs, existing := fetchAssigned kc cid gid p.realm, end_state := none }) := by
  simp only [afterResolve, h]
  simp

theorem afterResolve_check (p : Params) (kc : KC) (gid : String) (cid : Option String)
    (rs : List RoleRef) (u : List RoleRef)
    (h : compute_update_roles p.state rs (fetchAvailable kc cid gid p.realm)
          (fetchAssigned kc cid gid p.realm) = u)
    (hne : u ≠ []) (hcm : p.check_mode = true) :
    afterResolve p kc gid cid rs =
      (fetchCalls cid gid p.realm,
       Outcome.exited
         { changed := true, msg := "",
           diff := if p.diff_mode then some (fetchAssigned kc cid gid p.realm, u) else none,
           proposed := rs, existing := fetchAssigned kc cid gid p.realm, end_state := none }) := by
  rcases u with _ | ⟨a, l⟩
  · exact absurd rfl hne
  · cases hst : p.state <;> rw [hst] at h <;> simp [afterResolve, h, hst, hcm]

theorem afterResolve_mutate (p : Params) (kc : KC) (gid : String) (cid : Option String)
    (rs : List RoleRef) (u : List RoleRef)
    (h : compute_update_roles p.state rs (fetchAvailable kc cid gid p.realm)
          (fetchAssigned kc cid gid p.realm) = u)
    (hne : u ≠ []) (hcm : p.check_mode = false) :
    afterResolve p kc gid cid rs =
      (fetchCalls cid gid p.realm ++ [mutationCall p.state gid cid u p.realm] ++
         refetchCall cid gid p.realm,
       Outcome.exited
         { changed := true, msg := mutationMsg p.state u gid,
           diff := if p.diff_mode then some (fetchAssigned kc cid gid p.realm, u) else none,
           proposed := rs, existing := fetchAssigned kc cid gid p.realm,
           end_state := some (fetchAssigned kc cid gid p.realm) }) := by
  rcases u with _ | ⟨a, l⟩
  · exact absurd rfl hne
  · cases hst : p.state <;> rw [hst] at h <;>
      simp [afterResolve, h, hst, hcm, mutationCall, mutationMsg]

theorem fetchCalls_lookupOnly (cid : Option String) (gid realm : String) :
    LookupOnly (fetchCalls cid gid realm) := by
  rcases cid with _ | c <;> intro x hx <;> simp [fetchCalls] at hx <;>
    rcases hx with rfl | rfl <;> rfl

theorem refetchCall_lookupOnly (cid : Option String) (gid realm : String) :
    LookupOnly (refetchCall cid gid realm) := by
  rcases cid with _ | c <;> intro x hx <;> simp [refetchCall] at hx <;> subst hx <;> rfl

theorem mainRun_pipeline {p : Params} {kc : KC} {csG : List Call} {g : String}
    {csC : List Call} {c : Option String} {rs : List RoleRef} {csR : List Call}
    {resolved : List RoleRef}
    (hG : resolveGid p kc = (csG, Except.ok g))
    (hC : resolveCid p kc = (csC, Except.ok c))
    (hr : p.roles = some rs)
    (hR : resolveRolesList kc p.realm p.client_id g c rs = (csR, Except.ok resolved)) :
    mainRun p kc = (csG ++ csC ++ csR ++ (afterResolve p kc g c resolved).1,
                    (afterResolve p kc g c resolved).2) := by
  unfold mainRun
  simp only [hG, hC, hr, hR]

theorem mainRun_cases (p : Params) (kc : KC) (calls : List Call) (o : Outcome)
    (h : mainRun p kc = (calls, o)) :
    (LookupOnly calls ∧
      ((∃ m, o = Outcome.failed m) ∨ o = Outcome.crashed subscriptNoneMsg ∨
        o = Outcome.exitedMsg noRolesMsg)) ∨
    (∃ csG g csC c rs csR resolved,
        resolveGid p kc = (csG, Except.ok g) ∧
        resolveCid p kc = (csC, Except.ok c) ∧
        p.roles = some rs ∧
        resolveRolesList kc p.realm p.client_id g c rs = (csR, Except.ok resolved) ∧
        calls = csG ++ csC ++ csR ++ (afterResolve p kc g c resolved).1 ∧
        o = (afterResolve p kc g c resolved).2) := by
  unfold mainRun at h
  rcases hG : resolveGid p kc with ⟨csG, eG⟩
  have hGlook : LookupOnly csG := by
    have := resolveGid_lookupOnly p kc
    rw [hG] at this
    exact this
  rcases eG with o1 | g
  · simp only [hG, Prod.mk.injEq] at h
    obtain ⟨rfl, rfl⟩ := h
    rcases resolveGid_error_failed hG with ⟨m, rfl⟩
    exact Or.inl ⟨hGlook, Or.inl ⟨m, rfl⟩⟩
  · simp only [hG] at h
    rcases hC : resolveCid p kc with ⟨csC, eC⟩
    have hClook : LookupOnly csC := by
      have := resolveCid_lookupOnly p kc
      rw [hC] at this
      exact this
    rcases eC with o2 | c
    · simp only [hC, Prod.mk.injEq] at h
      obtain ⟨rfl, rfl⟩ := h
      rcases resolveCid_error_failed hC with ⟨m, rfl⟩
      exact Or.inl ⟨lookupOnly_append hGlook hClook, Or.inl ⟨m, rfl⟩⟩
    · simp only [hC] at h
      rcases hrs : p.roles with _ | rs
      · simp only [hrs, Prod.mk.injEq] at h
        obtain ⟨rfl, rfl⟩ := h
        exact Or.inl ⟨lookupOnly_append hGlook hClook, Or.inr (Or.inr rfl)⟩
      · simp only [hrs] at h
        rcases hR : resolveRolesList kc p.realm p.client_id g c rs with ⟨csR, eR⟩
        have hRlook : LookupOnly csR := by
          have := resolveRolesList_lookupOnly kc p.realm p.client_id g c rs
          rw [hR] at this
          exact this
        rcases eR with o3 | resolved
        · simp only [hR, Prod.mk.injEq] at h
          obtain ⟨rfl, rfl⟩ := h
          rcases resolveRolesList_error_shape hR with hm | hm
          · exact Or.inl ⟨lookupOnly_append (lookupOnly_append hGlook hClook) hRlook, Or.inl hm⟩
          · exact Or.inl ⟨lookupOnly_append (lookupOnly_append hGlook hClook) hRlook,
              Or.inr (Or.inl hm)⟩
        · simp only [hR] at h
          rcases hA : afterResolve p kc g c resolved with ⟨cs4, out⟩
          simp only [hA, Prod.mk.injEq] at h
          obtain ⟨rfl, rfl⟩ := h
          refine Or.inr ⟨csG, g, csC, c, rs, csR, resolved, rfl, rfl, rfl, hR, ?_, ?_⟩
          · rw [hA]
          · rw [hA]

theorem afterResolve_exited (p : Params) (kc : KC) (gid : String) (cid : Option String)
    (rs : List RoleRef) : ∃ r, (afterResolve p kc gid cid rs).2 = Outcome.exited r := by
  rcases hu : compute_update_roles p.state rs (fetchAvailable kc cid gid p.realm)
      (fetchAssigned kc cid gid p.realm) with _ | ⟨a, l⟩
  · rw [afterResolve_noop p kc gid cid rs hu]
    exact ⟨_, rfl⟩
  · cases hcm : p.check_mode
    · rw [afterResolve_mutate p kc gid cid rs (a :: l) hu (by simp) hcm]
      exact ⟨_, rfl⟩
    · rw [afterResolve_check p kc gid cid rs (a :: l) hu (by simp) hcm]
      exact ⟨_, rfl⟩

theorem afterResolve_changedOf (p : Params) (kc : KC) (gid : String) (cid : Option String)
    (rs : List RoleRef) :
    (afterResolve p kc gid cid rs).2.changedOf =
      some (!(compute_update_roles p.state rs (fetchAvailable kc cid gid p.realm)
        (fetchAssigned kc cid gid p.realm)).isEmpty) := by
  rcases hu : compute_update_roles p.state rs (fetchAvailable kc cid gid p.realm)
      (fetchAssigned kc cid gid p.realm) with _ | ⟨a, l⟩
  · rw [afterResolve_noop p kc gid cid rs hu]
    simp [Outcome.changedOf]
  · cases hcm : p.check_mode
    · rw [afterResolve_mutate p kc gid cid rs (a :: l) hu (by simp) hcm]
      simp [Outcome.changedOf]
    · rw [afterResolve_check p kc gid cid rs (a :: l) hu (by simp) hcm]
      simp [Outcome.changedOf]

theorem afterResolve_changed_false (p : Params) (kc : KC) (gid : String) (cid : Option String)
    (rs : List RoleRef) (r : ModuleResult)
    (h : (afterResolve p kc gid cid rs).2 = Outcome.exited r) (hch : r.changed = false) :
    r.end_state = none ∧ r.msg = noopMsg rs p.target_groupname ∧
      r.existing = fetchAssigned kc cid gid p.realm := by
  rcases hu : compute_update_roles p.state rs (fetchAvailable kc cid gid p.realm)
      (fetchAssigned kc cid gid p.realm) with _ | ⟨a, l⟩
  · rw [afterResolve_noop p kc gid cid rs hu] at h
    simp only [Outcome.exited.injEq] at h
    subst h
    exact ⟨rfl, rfl, rfl⟩
  · cases hcm : p.check_mode
    · rw [afterResolve_mutate p kc gid cid rs (a :: l) hu (by simp) hcm] at h
      simp only [Outcome.exited.injEq] at h
      subst h
      simp at hch
    · rw [afterResolve_check p kc gid cid rs (a :: l) hu (by simp) hcm] at h
      simp only [Outcome.exited.injEq] at h
      subst h
      simp at hch

theorem afterResolve_proposedOf (p : Params) (kc : KC) (gid : String) (cid : Option String)
    (rs : List RoleRef) : (afterResolve p kc gid cid rs).2.proposedOf = some rs := by
  rcases hu : compute_update_roles p.state rs (fetchAvailable kc cid gid p.realm)
      (fetchAssigned kc cid gid p.realm) with _ | ⟨a, l⟩
  · rw [afterResolve_noop p kc gid cid rs hu]
    rfl
  · cases hcm : p.check_mode
    · rw [afterResolve_mutate p kc gid cid rs (a :: l) hu (by simp) hcm]
      rfl
    · rw [afterResolve_check p kc gid cid rs (a :: l) hu (by simp) hcm]
      rfl

theorem afterResolve_check_calls (p : Params) (kc : KC) (gid : String) (cid : Option String)
    (rs : List RoleRef) (hcm : p.check_mode = true) :
    (afterResolve p kc gid cid rs).1 = fetchCalls cid gid p.realm := by
  rcases hu : compute_update_roles p.state rs (fetchAvailable kc cid gid p.realm)
      (fetchAssigned kc cid gid p.realm) with _ | ⟨a, l⟩
  · rw [afterResolve_noop p kc gid cid rs hu]
  · rw [afterResolve_check p kc gid cid rs (a :: l) hu (by simp) hcm]

theorem lookupOnly_iff_all (cs : List Call) :
    LookupOnly cs ↔ cs.all (fun x => !x.isMutating) = true := by
  simp [LookupOnly, List.all_eq_true]

/-- C1: the Diff Engine (lines 311-328) is a pure function of the desired
list, the intent and the two comparison sets; under Present a desired role
contributes an entry exactly when a role of exactly the same name occurs in
the available set, under Absent exactly when one occurs in the assigned
set, and a desired role matching neither set contributes nothing (and
raises no error, the function being total). -/
theorem diff_engine_name_match (roles : List RoleRef) (available assigned : List ResolvedRole)
    (x : RoleRef) :
    (x ∈ compute_update_roles Intent.present roles available assigned ↔
      ∃ r ∈ roles, (∃ c ∈ available, r.name = some c.name) ∧ x = RoleRef.mk r.name r.id) ∧
    (x ∈ compute_update_roles Intent.absent roles available assigned ↔
      ∃ r ∈ roles, (∃ c ∈ assigned, r.name = some c.name) ∧ x = RoleRef.mk r.name r.id) :=
  ⟨mem_compute_update_roles Intent.present roles available assigned x,
   mem_compute_update_roles Intent.absent roles available assigned x⟩

/-- C10: every mutation-list entry is built from the own name and id of
the desired role (the matching comparison-set element is discarded by the map),
and one entry is appended per matching comparison-set element, so several
same-named comparison entries yield that many duplicates. -/
theorem diff_engine_entry_provenance (state : Intent) (roles : List RoleRef)
    (available assigned : List ResolvedRole) :
    compute_update_roles state roles available assigned =
      roles.flatMap (fun r =>
        ((cmpSet state available assigned).filter (fun c => r.name == some c.name)).map
          (fun _ => RoleRef.mk r.name r.id)) := by
  rw [compute_update_roles_eq_flatMap]
  simp only [roleMatches_eq_filter_map]

/-- C2 counterexample: with the group given by name, a role reference with
neither field causes the run to fail with the invalid-input message only
after the group-name lookup has been issued, so the remote call count at
the moment of failure is one, not zero. -/
theorem resolution_precondition_cex :
    mainRun pC2 kcC2 = ([Call.getGroupByName "grp" "master"], Outcome.failed roleFieldMsg) ∧
    [Call.getGroupByName "grp" "master"].length ≠ 0 := by
  constructor
  · decide
  · decide

/-- C2 amended: a role reference with neither name nor id fails with the
invalid-input message, and the remote call count at the failure is zero
provided the group id is supplied directly, client resolution needs no
lookup, and the offending reference comes first; in general (see the
counterexample) group, client and earlier-role lookups may precede the
failure, though a mutating call never does. -/
theorem resolution_precondition_amended (p : Params) (kc : KC) (g : String)
    (rest : List RoleRef) (hg : p.gid = some g)
    (hc : p.cid ≠ none ∨ p.client_id = none)
    (hr : p.roles = some (RoleRef.mk none none :: rest)) :
    mainRun p kc = ([], Outcome.failed roleFieldMsg) := by
  obtain ⟨st, realm, gid, tg, cid, clid, roles, cm, dm⟩ := p
  simp only at hg hc hr
  subst hg
  subst hr
  have hG : resolveGid (Params.mk st realm (some g) tg cid clid
      (some (RoleRef.mk none none :: rest)) cm dm) kc = ([], Except.ok g) := by
    rcases tg with _ | t <;> rfl
  have hRole : ∀ c2 : Option String,
      resolveRolesList kc realm clid g c2 (RoleRef.mk none none :: rest) =
        ([], Except.error (Outcome.failed roleFieldMsg)) := by
    intro c2
    rfl
  rcases cid with _ | c
  · rcases hc with hbad | hcl
    · exact absurd rfl hbad
    · subst hcl
      unfold mainRun
      simp only [hG, resolveCid, hRole]
      rfl
  · unfold mainRun
    simp only [hG, resolveCid, hRole]
    rfl

/-- C2 witness: a concrete input satisfying the amended side conditions,
run through the theorem. -/
theorem resolution_precondition_witness :
    mainRun pC2w kcEmpty = ([], Outcome.failed roleFieldMsg) :=
  resolution_precondition_amended pC2w kcEmpty "g1" [] rfl (Or.inr rfl) rfl

/-- C3 counterexample: a no-op run (changed false) whose pre-mutation
assigned set is nonempty leaves end_state at its initial empty placeholder
rather than equal to that set. -/
theorem noop_endstate_cex :
    mainRun pC3 kcMain = (csC3, Outcome.exited rC3) ∧
    rC3.changed = false ∧ rC3.end_state = none ∧
    rC3.existing = [ResolvedRole.mk "i9" "other"] ∧
    rC3.end_state ≠ some rC3.existing := by
  refine ⟨by decide, rfl, rfl, rfl, by decide⟩

/-- C3 amended: whenever the invocation exits with changed false, the
reported end_state is the untouched initial empty placeholder (the
pre-mutation assigned set is reported in existing, not in end_state). -/
theorem noop_endstate_amended (p : Params) (kc : KC) (calls : List Call) (r : ModuleResult)
    (h : mainRun p kc = (calls, Outcome.exited r)) (hch : r.changed = false) :
    r.end_state = none := by
  rcases mainRun_cases p kc calls _ h with ⟨_, hsh⟩ | ⟨csG, g, csC, c, rs, csR, resolved,
    _, _, _, _, _, ho⟩
  · rcases hsh with ⟨m, hm⟩ | hm | hm <;> cases hm
  · exact (afterResolve_changed_false p kc g c resolved r ho.symm hch).1

/-- C3 witness: the amended theorem applied to the concrete no-op run. -/
theorem noop_endstate_witness : rC3.end_state = none :=
  noop_endstate_amended pC3 kcMain csC3 rC3 (by decide) rfl

/-- C6: with the role lookup modelled from the spec as returning an
optional value, a realm-scoped role reference whose by-name lookup returns
nothing makes line 284 subscript the missing result, so the run dies with
a TypeError instead of the intended could-not-fetch-role failure message
(the message branch at lines 289-290 shows the intent but is unreachable
on this path). -/
theorem role_lookup_crash :
    mainRun pMain kcEmpty = ([Call.getRealmRole "r1" "master"],
      Outcome.crashed subscriptNoneMsg) := by
  decide

theorem lookupOnly_filter_nil {cs : List Call} (h : LookupOnly cs) :
    cs.filter (fun x => x.isMutating) = [] := by
  rw [List.filter_eq_nil_iff]
  intro a ha
  simp [h a ha]

theorem mutationCall_isMutating (state : Intent) (gid : String) (cid : Option String)
    (u : List RoleRef) (realm : String) :
    (mutationCall state gid cid u realm).isMutating = true := by
  cases state <;> rfl

/-- C4: in check mode the run issues no mutating call at all, the changed
flag it reports agrees with the one a live run against the same service
would report, and the changed flag of the reconciliation core is true
exactly when the computed mutation list is non-empty. -/
theorem dry_run_purity (p : Params) (kc : KC) (hcm : p.check_mode = true) :
    ((mainRun p kc).1.all (fun x => !x.isMutating) = true) ∧
    (∀ b, (mainRun p kc).2.changedOf = some b →
      (mainRun { p with check_mode := false } kc).2.changedOf = some b) ∧
    (∀ g c rs, (afterResolve p kc g c rs).2.changedOf =
      some (!(compute_update_roles p.state rs (fetchAvailable kc c g p.realm)
        (fetchAssigned kc c g p.realm)).isEmpty)) := by
  refine ⟨?_, ?_, ?_⟩
  · rcases hM : mainRun p kc with ⟨calls, o⟩
    rcases mainRun_cases p kc calls o hM with ⟨hl, _⟩ | ⟨csG, g, csC, c, rs, csR, resolved,
      hG, hC, hr, hR, hcalls, ho⟩
    · exact (lookupOnly_iff_all calls).1 hl
    · subst hcalls
      refine (lookupOnly_iff_all _).1 ?_
      refine lookupOnly_append (lookupOnly_append (lookupOnly_append ?_ ?_) ?_) ?_
      · have := resolveGid_lookupOnly p kc
        rw [hG] at this
        exact this
      · have := resolveCid_lookupOnly p kc
        rw [hC] at this
        exact this
      · have := resolveRolesList_lookupOnly kc p.realm p.client_id g c rs
        rw [hR] at this
        exact this
      · rw [afterResolve_check_calls p kc g c resolved hcm]
        exact fetchCalls_lookupOnly c g p.realm
  · intro b hb
    rcases hM : mainRun p kc with ⟨calls, o⟩
    rw [hM] at hb
    rcases mainRun_cases p kc calls o hM with ⟨_, hsh⟩ | ⟨csG, g, csC, c, rs, csR, resolved,
      hG, hC, hr, hR, hcalls, ho⟩
    · rcases hsh with ⟨m, rfl⟩ | rfl | rfl <;> cases hb
    · have hG2 : resolveGid { p with check_mode := false } kc = (csG, Except.ok g) := hG
      have hC2 : resolveCid { p with check_mode := false } kc = (csC, Except.ok c) := hC
      have hr2 : ({ p with check_mode := false } : Params).roles = some rs := hr
      have hR2 : resolveRolesList kc ({ p with check_mode := false } : Params).realm
          ({ p with check_mode := false } : Params).client_id g c rs =
            (csR, Except.ok resolved) := hR
      rw [mainRun_pipeline hG2 hC2 hr2 hR2]
      have h1 := afterResolve_changedOf p kc g c resolved
      have h2 := afterResolve_changedOf { p with check_mode := false } kc g c resolved
      rw [ho] at hb
      rw [h1] at hb
      rw [h2]
      exact hb
  · intro g c rs
    exact afterResolve_changedOf p kc g c rs

/-- C4 witness: the check-mode run of the concrete present-intent scenario
issues no mutating call. -/
theorem dry_run_purity_witness :
    (mainRun pC4 kcMain).1.all (fun x => !x.isMutating) = true :=
  (dry_run_purity pC4 kcMain rfl).1

/-- C5: when the diff engine computes an empty mutation list, the run
issues no mutating call, exits with changed false and reports the
nothing-to-do message. -/
theorem noop_safety (p : Params) (kc : KC) (csG : List Call) (g : String) (csC : List Call)
    (c : Option String) (rs : List RoleRef) (csR : List Call) (resolved : List RoleRef)
    (hG : resolveGid p kc = (csG, Except.ok g))
    (hC : resolveCid p kc = (csC, Except.ok c))
    (hr : p.roles = some rs)
    (hR : resolveRolesList kc p.realm p.client_id g c rs = (csR, Except.ok resolved))
    (hu : compute_update_roles p.state resolved (fetchAvailable kc c g p.realm)
      (fetchAssigned kc c g p.realm) = []) :
    mainRun p kc = (csG ++ csC ++ csR ++ fetchCalls c g p.realm,
      Outcome.exited
        { changed := false
          msg := noopMsg resolved p.target_groupname
          diff := none
          proposed := resolved
          existing := fetchAssigned kc c g p.realm
          end_state := none }) ∧
    (csG ++ csC ++ csR ++ fetchCalls c g p.realm).all (fun x => !x.isMutating) = true := by
  have hA := afterResolve_noop p kc g c resolved hu
  constructor
  · rw [mainRun_pipeline hG hC hr hR, hA]
  · refine (lookupOnly_iff_all _).1 ?_
    refine lookupOnly_append (lookupOnly_append (lookupOnly_append ?_ ?_) ?_)
      (fetchCalls_lookupOnly c g p.realm)
    · have := resolveGid_lookupOnly p kc
      rw [hG] at this
      exact this
    · have := resolveCid_lookupOnly p kc
      rw [hC] at this
      exact this
    · have := resolveRolesList_lookupOnly kc p.realm p.client_id g c rs
      rw [hR] at this
      exact this

/-- C5 witness: the concrete absent-intent no-op run, through the theorem. -/
theorem noop_safety_witness : (mainRun pC3 kcMain).2.changedOf = some false := by
  have h := noop_safety pC3 kcMain [] "g1" [] none [RoleRef.mk (some "r1") none]
    [Call.getRealmRole "r1" "master"] [RoleRef.mk (some "r1") (some "i1")]
    rfl rfl rfl rfl rfl
  rw [h.1]
  rfl

/-- C7: with a non-empty mutation list and check mode off, the run issues
exactly one mutating call, batched with the full mutation list (add under
present, delete under absent), followed by the single composite re-fetch
that produces end_state; and any failing run terminates without ever
having issued a mutating call. -/
theorem single_batched_mutation (p : Params) (kc : KC) (csG : List Call) (g : String)
    (csC : List Call) (c : Option String) (rs : List RoleRef) (csR : List Call)
    (resolved : List RoleRef) (u : List RoleRef)
    (hG : resolveGid p kc = (csG, Except.ok g))
    (hC : resolveCid p kc = (csC, Except.ok c))
    (hr : p.roles = some rs)
    (hR : resolveRolesList kc p.realm p.client_id g c rs = (csR, Except.ok resolved))
    (hu : compute_update_roles p.state resolved (fetchAvailable kc c g p.realm)
      (fetchAssigned kc c g p.realm) = u)
    (hne : u ≠ []) (hcm : p.check_mode = false) :
    mainRun p kc = (csG ++ csC ++ csR ++ (fetchCalls c g p.realm ++
        [mutationCall p.state g c u p.realm] ++ refetchCall c g p.realm),
      Outcome.exited
        { changed := true
          msg := mutationMsg p.state u g
          diff := if p.diff_mode then some (fetchAssigned kc c g p.realm, u) else none
          proposed := resolved
          existing := fetchAssigned kc c g p.realm
          end_state := some (fetchAssigned kc c g p.realm) }) ∧
    (csG ++ csC ++ csR ++ (fetchCalls c g p.realm ++ [mutationCall p.state g c u p.realm] ++
        refetchCall c g p.realm)).filter (fun x => x.isMutating) =
      [mutationCall p.state g c u p.realm] ∧
    (∀ p2 kc2 calls2 o2, mainRun p2 kc2 = (calls2, o2) → o2.isFailure = true →
      calls2.all (fun x => !x.isMutating) = true) := by
  have hGl : LookupOnly csG := by
    have := resolveGid_lookupOnly p kc
    rw [hG] at this
    exact this
  have hCl : LookupOnly csC := by
    have := resolveCid_lookupOnly p kc
    rw [hC] at this
    exact this
  have hRl : LookupOnly csR := by
    have := resolveRolesList_lookupOnly kc p.realm p.client_id g c rs
    rw [hR] at this
    exact this
  refine ⟨?_, ?_, ?_⟩
  · rw [mainRun_pipeline hG hC hr hR, afterResolve_mutate p kc g c resolved u hu hne hcm]
  · simp only [List.filter_append, lookupOnly_filter_nil hGl, lookupOnly_filter_nil hCl,
      lookupOnly_filter_nil hRl, lookupOnly_filter_nil (fetchCalls_lookupOnly c g p.realm),
      lookupOnly_filter_nil (refetchCall_lookupOnly c g p.realm), List.filter_cons,
      mutationCall_isMutating, List.filter_nil]
    simp
  · intro p2 kc2 calls2 o2 hM2 hf
    rcases mainRun_cases p2 kc2 calls2 o2 hM2 with ⟨hl, _⟩ | ⟨csG2, g2, csC2, c2, rs2, csR2,
      resolved2, hG2, hC2, hr2, hR2, hcalls2, ho2⟩
    · exact (lookupOnly_iff_all _).1 hl
    · rcases afterResolve_exited p2 kc2 g2 c2 resolved2 with ⟨r, hr3⟩
      rw [ho2, hr3] at hf
      cases hf

/-- C7 witness: the concrete present-intent live run, through the theorem:
the only mutating call in its trace is the single batched add. -/
theorem single_batched_mutation_witness :
    (mainRun pMain kcMain).1.filter (fun x => x.isMutating) =
      [Call.addGroupRolemapping "g1" none [RoleRef.mk (some "r1") (some "i1")] "master"] := by
  have h := single_batched_mutation pMain kcMain [] "g1" [] none
    [RoleRef.mk (some "r1") none] [Call.getRealmRole "r1" "master"]
    [RoleRef.mk (some "r1") (some "i1")] [RoleRef.mk (some "r1") (some "i1")]
    rfl rfl rfl rfl rfl (by decide) rfl
  rw [h.1]
  rfl

/-- C8 counterexample: a first run that mutates, then a second run against
a service consistent with that mutation: changed goes true then false as
claimed, but the two end_state values differ (the second run leaves the
initial empty placeholder), refuting the endState-identical part. -/
theorem idempotence_endstate_cex :
    (mainRun pMain kcMain).2.changedOf = some true ∧
    (mainRun pMain kcMain2).2.changedOf = some false ∧
    (mainRun pMain kcMain).2.endStateOf = some (some [ResolvedRole.mk "i9" "other"]) ∧
    (mainRun pMain kcMain2).2.endStateOf = some none ∧
    (mainRun pMain kcMain).2.endStateOf ≠ (mainRun pMain kcMain2).2.endStateOf := by
  refine ⟨by decide, by decide, by decide, by decide, by decide⟩

/-- C8 amended: over the reconciliation core (post-resolution), if the
comparison set of the second service for the intent equals the first minus
the names mutated by the first run, the changed flag of the first run
reflects its work and the second run reports changed false; but the second
run leaves end_state at the initial empty placeholder, which differs from
the end_state of the first run whenever the first run mutated. -/
theorem idempotence_amended (p : Params) (kc1 kc2 : KC) (g : String) (c : Option String)
    (resolved : List RoleRef) (u : List RoleRef)
    (hcm : p.check_mode = false)
    (hu : compute_update_roles p.state resolved (fetchAvailable kc1 c g p.realm)
      (fetchAssigned kc1 c g p.realm) = u)
    (hcons : cmpSet p.state (fetchAvailable kc2 c g p.realm) (fetchAssigned kc2 c g p.realm) =
      (cmpSet p.state (fetchAvailable kc1 c g p.realm)
        (fetchAssigned kc1 c g p.realm)).filter
          (fun a => !(decide (some a.name ∈ u.map RoleRef.name)))) :
    (afterResolve p kc1 g c resolved).2.changedOf = some (!u.isEmpty) ∧
    (afterResolve p kc2 g c resolved).2.changedOf = some false ∧
    (afterResolve p kc2 g c resolved).2.endStateOf = some none ∧
    (u ≠ [] → (afterResolve p kc1 g c resolved).2.endStateOf ≠
      (afterResolve p kc2 g c resolved).2.endStateOf) := by
  have hu2 : compute_update_roles p.state resolved (fetchAvailable kc2 c g p.realm)
      (fetchAssigned kc2 c g p.realm) = [] := by
    rw [compute_update_roles_eq_nil_iff]
    intro r hr cc hcc hname
    rw [hcons] at hcc
    rcases List.mem_filter.1 hcc with ⟨hcc1, hcc2⟩
    have hmem : RoleRef.mk r.name r.id ∈ u := by
      rw [← hu]
      exact (mem_compute_update_roles _ _ _ _ _).2 ⟨r, hr, ⟨cc, hcc1, hname⟩, rfl⟩
    have hname2 : (some cc.name) ∈ u.map RoleRef.name :=
      List.mem_map.2 ⟨RoleRef.mk r.name r.id, hmem, hname⟩
    rw [Bool.not_eq_true', decide_eq_false_iff_not] at hcc2
    exact hcc2 hname2
  have hA2 := afterResolve_noop p kc2 g c resolved hu2
  refine ⟨?_, ?_, ?_, ?_⟩
  · rw [afterResolve_changedOf p kc1 g c resolved, hu]
  · rw [hA2]
    rfl
  · rw [hA2]
    rfl
  · intro hne
    rw [afterResolve_mutate p kc1 g c resolved u hu hne hcm, hA2]
    simp [Outcome.endStateOf]

/-- C8 witness: the concrete consistent two-service scenario, through the
theorem: the second run reports changed false. -/
theorem idempotence_witness :
    (afterResolve pMain kcMain2 "g1" none [RoleRef.mk (some "r1") (some "i1")]).2.changedOf =
      some false := by
  have h := idempotence_amended pMain kcMain kcMain2 "g1" none
    [RoleRef.mk (some "r1") (some "i1")] [RoleRef.mk (some "r1") (some "i1")]
    rfl rfl (by decide)
  exact h.2.1

/-- C9 counterexample: the caller supplied a role with no id; the reported
proposed list carries the id filled in by resolution, so it differs from
the original desired list. -/
theorem proposed_mutation_cex :
    pMain.roles = some [RoleRef.mk (some "r1") none] ∧
    (mainRun pMain kcMain).2.proposedOf = some [RoleRef.mk (some "r1") (some "i1")] ∧
    some [RoleRef.mk (some "r1") (some "i1")] ≠ some [RoleRef.mk (some "r1") none] := by
  refine ⟨rfl, by decide, by decide⟩

/-- C9 amended: the reported proposed list is the desired list after
in-place resolution (missing ids filled from the by-name lookup, names of
id-known references overwritten from the by-id lookup), not the raw list
as supplied by the caller. -/
theorem proposed_resolved_amended (p : Params) (kc : KC) (csG : List Call) (g : String)
    (csC : List Call) (c : Option String) (rs : List RoleRef) (csR : List Call)
    (resolved : List RoleRef)
    (hG : resolveGid p kc = (csG, Except.ok g))
    (hC : resolveCid p kc = (csC, Except.ok c))
    (hr : p.roles = some rs)
    (hR : resolveRolesList kc p.realm p.client_id g c rs = (csR, Except.ok resolved)) :
    (mainRun p kc).2.proposedOf = some resolved := by
  rw [mainRun_pipeline hG hC hr hR]
  exact afterResolve_proposedOf p kc g c resolved

/-- C9 witness: the amended theorem at the concrete absent-intent run. -/
theorem proposed_resolved_witness :
    (mainRun pC3 kcMain).2.proposedOf = some [RoleRef.mk (some "r1") (some "i1")] :=
  proposed_resolved_amended pC3 kcMain [] "g1" [] none [RoleRef.mk (some "r1") none]
    [Call.getRealmRole "r1" "master"] [RoleRef.mk (some "r1") (some "i1")] rfl rfl rfl rfl

end GroupRolemapping
